import Mathlib

/-!
A shallow embedding of the TLS callback layer (`src/lib/tls/tls_callbacks.cpp`)
and the ECC key model (`src/pubkey/ecc_key/ecc_key.cpp`) of this repository,
together with proofs of the behavioural properties stated in the specification.

External collaborators (big-integer arithmetic, point arithmetic, the ASN.1
engine, the TLS policy object, the path validator, the OCSP parser) are out of
scope per the spec and are modelled as explicit parameters (environment
records of functions) or as symbolic free constructors, so every claim is
quantified over their behaviour.
-/

/-! ## Bytes and big integers

`BigInt::decode` / `BigInt::encode_1363` are part of the big-integer library,
an external collaborator. Modelled from the spec: base-256 big-endian byte
encoding of unsigned integers, minimal width for `bytes()`. -/

/-- A wire byte string; each element is one byte value. -/
abbrev Bytes := List Nat

namespace BigInt

/-- Modelled from the spec: `BigInt::decode` reads a big-endian base-256
byte string as an unsigned integer. -/
def decode (bs : Bytes) : Nat :=
  bs.foldl (fun acc b => acc * 256 + b) 0

/-- Big-endian encoding of `n` into exactly `len` bytes (left zero padded);
this is `BigInt::encode_1363` at its only call site, where the requested
width is at least `n.bytes()`. -/
def encode_be (n : Nat) : Nat → Bytes
  | 0 => []
  | len + 1 => encode_be (n / 256) len ++ [n % 256]

/-- Modelled from the spec: `BigInt::bytes()`, the minimal number of base-256
digits of `n` (0 for `n = 0`). -/
def bytes (n : Nat) : Nat :=
  if n = 0 then 0 else bytes (n / 256) + 1
decreasing_by
  simp_wf
  omega

theorem bytes_zero : bytes 0 = 0 := by
  unfold bytes
  simp

theorem bytes_pos (n : Nat) (h : 0 < n) : bytes n = bytes (n / 256) + 1 := by
  rw [bytes]
  simp [Nat.pos_iff_ne_zero.mp h]

theorem decode_append_one (bs : Bytes) (b : Nat) :
    decode (bs ++ [b]) = decode bs * 256 + b := by
  unfold decode
  rw [List.foldl_append]
  rfl

/-- Round-trip: decoding a big-endian encoding of width at least `bytes n`
recovers `n`. -/
theorem decode_encode_be (len : Nat) :
    ∀ n : Nat, bytes n ≤ len → decode (encode_be n len) = n := by
  induction len with
  | zero =>
    intro n h
    have hn : n = 0 := by
      cases n with
      | zero => rfl
      | succ m =>
        rw [bytes_pos (m + 1) (Nat.succ_pos m)] at h
        omega
    subst hn
    rfl
  | succ len ih =>
    intro n h
    have hdiv : bytes (n / 256) ≤ len := by
      cases n with
      | zero =>
        rw [Nat.zero_div, bytes_zero]
        exact Nat.zero_le len
      | succ m =>
        rw [bytes_pos (m + 1) (Nat.succ_pos m)] at h
        omega
    unfold encode_be
    rw [decode_append_one, ih (n / 256) hdiv]
    omega

end BigInt

/-! ## TLS group specifications

`TLS::Group_Params` and the predicates `is_dh`, `is_ecdh`, `is_x25519` live
in `tls_algos.h`, which is not under `src/`. Modelled from the spec: a fixed
enumeration of named groups, each tagged with exactly one key-exchange
family, plus a NONE value for an unrecognized group. -/

inductive Group_Params where
  | SECP256R1
  | SECP384R1
  | SECP521R1
  | X25519
  | FFDHE_2048
  | FFDHE_3072
  | FFDHE_4096
  | FFDHE_6144
  | FFDHE_8192
  | NONE
deriving DecidableEq, Repr

/-- Modelled from the spec: identifiers tagged as finite-field-DH-class in
the fixed enumeration. -/
def is_dh : Group_Params → Bool
  | .FFDHE_2048 | .FFDHE_3072 | .FFDHE_4096 | .FFDHE_6144 | .FFDHE_8192 => true
  | _ => false

/-- Modelled from the spec: identifiers tagged as named elliptic curves. -/
def is_ecdh : Group_Params → Bool
  | .SECP256R1 | .SECP384R1 | .SECP521R1 => true
  | _ => false

/-- Modelled from the spec: the fixed non-elliptic-curve DH-like function. -/
def is_x25519 : Group_Params → Bool
  | .X25519 => true
  | _ => false

/-- Modelled from the spec: the identifier registry's name for each group
identifier (`group_param_to_string`). -/
def group_param_to_string : Group_Params → String
  | .SECP256R1 => "secp256r1"
  | .SECP384R1 => "secp384r1"
  | .SECP521R1 => "secp521r1"
  | .X25519 => "x25519"
  | .FFDHE_2048 => "ffdhe/ietf/2048"
  | .FFDHE_3072 => "ffdhe/ietf/3072"
  | .FFDHE_4096 => "ffdhe/ietf/4096"
  | .FFDHE_6144 => "ffdhe/ietf/6144"
  | .FFDHE_8192 => "ffdhe/ietf/8192"
  | .NONE => "none"

/-- Explicit finite-field group parameters: prime modulus, generator,
optional subgroup order (spec §3, `DL_Group`). -/
structure DL_Group where
  p : Nat
  g : Nat
  q : Option Nat := none
deriving DecidableEq, Repr

/-- `std::variant<TLS::Group_Params, DL_Group>`: a named-group identifier or
explicit finite-field parameters. -/
abbrev GroupSpec := Sum Group_Params DL_Group

/-- `is_dh_group` from `tls_callbacks.cpp`: the group holds explicit DL
parameters, or its identifier is tagged as a DH group. -/
def is_dh_group (group : GroupSpec) : Bool :=
  match group with
  | .inr _ => true
  | .inl gp => is_dh gp

/-! ## Alerts, errors and symbolic key-agreement values -/

inductive Alert where
  | IllegalParameter
  | DecodeError
  | HandshakeFailure
  | BadCertificate
deriving DecidableEq, Repr

/-- A validated peer public key as constructed inside
`tls_ephemeral_key_agreement`; the concrete key classes (`DH_PublicKey`,
`ECDH_PublicKey`, `Curve25519_PublicKey`) are external collaborators and are
modelled symbolically by what the call site feeds them. -/
inductive PeerKey where
  | dh (group : DL_Group) (y : Nat)
  | ecdh (curve : String) (pt : Nat)
  | x25519 (bytes : Bytes)
deriving DecidableEq, Repr

/-- The failure modes of the embedded operations. `tls_exception` is a
thrown `TLS_Exception`; `policy_rejected` models whatever
`Policy::check_peer_key_acceptable` (external collaborator) throws;
`decoding_error` models a propagated `Decoding_Error` from a collaborator
decode such as `OS2ECP`; `invalid_argument`, `invalid_state`,
`internal_error` model the like-named exception classes;
`assertion_failure` models a fired `BOTAN_ASSERT`. -/
inductive BotanError where
  | tls_exception (alert : Alert) (msg : String)
  | policy_rejected (peer : PeerKey)
  | decoding_error (msg : String)
  | invalid_argument (msg : String)
  | invalid_state (msg : String)
  | internal_error (msg : String)
  | assertion_failure
deriving DecidableEq, Repr

/-- The local ephemeral key-agreement key (`PK_Key_Agreement_Key`): the
concrete key classes are external, so only the information the callback
layer itself determines is kept — which family the key was generated for
and, for finite-field keys, over which group. -/
inductive KAKey where
  | dh (group : DL_Group)
  | ecdh (curve : String)
  | x25519
deriving DecidableEq, Repr

/-- The raw agreement output. The agreement primitive
(`PK_Key_Agreement::derive_key`, "Raw") is an external collaborator;
modelled symbolically as a free constructor recording which local key and
which validated peer key it was applied to. -/
inductive SharedSecret where
  | raw_agreement (sk : KAKey) (peer : PeerKey)
deriving DecidableEq, Repr

/-- The external collaborators consumed by the key-agreement callbacks:
the named-DL-group table (`DL_Group` constructed from a registry name), the
point decoder `EC_Group::OS2ECP` (which throws `Decoding_Error` on a
malformed or off-curve encoding), and the policy predicate
`Policy::check_peer_key_acceptable`. -/
structure TLS_Env where
  dl_group_by_name : String → DL_Group
  os2ecp : String → Bytes → Except String Nat
  policy_accepts : PeerKey → Bool

/-- `get_dl_group` from `tls_callbacks.cpp` (callers assert
`is_dh_group group` first): explicit parameters are used as-is, a named
identifier is resolved through the registry. -/
def get_dl_group (env : TLS_Env) (group : GroupSpec) : DL_Group :=
  match group with
  | .inr dl_group => dl_group
  | .inl group_param => env.dl_group_by_name (group_param_to_string group_param)

/-- `TLS::Callbacks::tls_generate_ephemeral_key`. -/
def tls_generate_ephemeral_key (env : TLS_Env) (group : GroupSpec) :
    Except BotanError KAKey :=
  if is_dh_group group then
    .ok (KAKey.dh (get_dl_group env group))
  else
    match group with
    | .inr _ => .error .assertion_failure
    | .inl group_params =>
      if is_ecdh group_params then
        .ok (KAKey.ecdh (group_param_to_string group_params))
      else if is_x25519 group_params then
        .ok KAKey.x25519
      else
        .error (.tls_exception .DecodeError
          "cannot create a key offering without a group definition")

/-- `TLS::Callbacks::tls_ephemeral_key_agreement`. -/
def tls_ephemeral_key_agreement (env : TLS_Env) (group : GroupSpec)
    (private_key : KAKey) (public_value : Bytes) :
    Except BotanError SharedSecret :=
  if is_dh_group group then
    let dl_group := get_dl_group env group
    let Y := BigInt.decode public_value
    if Y ≤ 1 ∨ Y ≥ dl_group.p - 1 then
      .error (.tls_exception .IllegalParameter
        "Server sent bad DH key for DHE exchange")
    else
      let peer_key := PeerKey.dh dl_group Y
      if env.policy_accepts peer_key then
        .ok (SharedSecret.raw_agreement private_key peer_key)
      else
        .error (.policy_rejected peer_key)
  else
    match group with
    | .inr _ => .error .assertion_failure
    | .inl group_params =>
      if is_ecdh group_params then
        let curve := group_param_to_string group_params
        match env.os2ecp curve public_value with
        | .error msg => .error (.decoding_error msg)
        | .ok pt =>
          let peer_key := PeerKey.ecdh curve pt
          if env.policy_accepts peer_key then
            .ok (SharedSecret.raw_agreement private_key peer_key)
          else
            .error (.policy_rejected peer_key)
      else if is_x25519 group_params then
        if public_value.length ≠ 32 then
          .error (.tls_exception .HandshakeFailure "Invalid X25519 key size")
        else
          let peer_key := PeerKey.x25519 public_value
          if env.policy_accepts peer_key then
            .ok (SharedSecret.raw_agreement private_key peer_key)
          else
            .error (.policy_rejected peer_key)
      else
        .error (.tls_exception .IllegalParameter
          "Did not recognize the key exchange group")

/-! ## Certificate chain verification, OCSP parsing, session retention -/

/-- Certificates, certificate stores and parsed OCSP responses are external
opaque objects; modelled as abstract handles. -/
abbrev X509_Certificate := Nat

abbrev Certificate_Store := Nat

abbrev OCSP_Response := Nat

inductive Usage_Type where
  | UNSPECIFIED
  | TLS_SERVER_AUTH
  | TLS_CLIENT_AUTH
  | CERTIFICATE_AUTHORITY
  | OCSP_RESPONDER
deriving DecidableEq, Repr

/-- `Path_Validation_Restrictions(require_rev, minimum_key_strength)` as
built in `tls_verify_cert_chain` from the policy's two knobs. -/
structure Path_Validation_Restrictions where
  require_revocation_information : Bool
  minimum_signature_strength : Nat
deriving DecidableEq, Repr

/-- `Path_Validation_Result`: success flag plus diagnostic string
(spec §3, Validation Result). -/
structure Path_Validation_Result where
  successful_validation : Bool
  result_string : String
deriving DecidableEq, Repr

/-- The external collaborators consumed by `tls_verify_cert_chain` and
`tls_parse_ocsp_response`: the two policy knobs, the current-time source
(`tls_current_timestamp`), the OCSP staleness timeout
(`tls_verify_cert_chain_ocsp_timeout`), the path validator
(`x509_path_validate`, consumed as
`validate(chain, restrictions, anchors, hostname, usage, now, timeout,
ocsp) -> Result`), and the OCSP parser (`OCSP::Response(raw)`, whose parse
failures are `Decoding_Error`s carrying a message, per spec §4.3/§7). -/
structure Verify_Env where
  require_cert_revocation_info : Bool
  minimum_signature_strength : Nat
  current_timestamp : Nat
  ocsp_timeout : Nat
  x509_path_validate :
    List X509_Certificate → Path_Validation_Restrictions →
    List Certificate_Store → String → Usage_Type → Nat → Nat →
    List (Option OCSP_Response) → Path_Validation_Result
  ocsp_parse : Bytes → Except String OCSP_Response

/-- `TLS::Callbacks::tls_verify_cert_chain`. -/
def tls_verify_cert_chain (env : Verify_Env)
    (cert_chain : List X509_Certificate)
    (ocsp_responses : List (Option OCSP_Response))
    (trusted_roots : List Certificate_Store)
    (usage : Usage_Type) (hostname : String) : Except BotanError Unit :=
  if cert_chain.isEmpty then
    .error (.invalid_argument "Certificate chain was empty")
  else
    let restrictions : Path_Validation_Restrictions :=
      ⟨env.require_cert_revocation_info, env.minimum_signature_strength⟩
    let result := env.x509_path_validate cert_chain restrictions trusted_roots
      (if usage = Usage_Type.TLS_SERVER_AUTH then hostname else "")
      usage env.current_timestamp env.ocsp_timeout ocsp_responses
    if result.successful_validation then
      .ok ()
    else
      .error (.tls_exception .BadCertificate
        ("Certificate validation failure: " ++ result.result_string))

/-- `TLS::Callbacks::tls_parse_ocsp_response`: try to parse, and swallow a
`Decoding_Error` into absence. -/
def tls_parse_ocsp_response (env : Verify_Env) (raw_response : Bytes) :
    Option OCSP_Response :=
  match env.ocsp_parse raw_response with
  | .ok response => some response
  | .error _ => none

/-- `TLS::Callbacks::tls_provide_cert_chain_status`: one status blob per
chain position, only position 0 populated. -/
def tls_provide_cert_chain_status (leaf_status : Bytes)
    (chain : List X509_Certificate) : List Bytes :=
  match chain with
  | [] => []
  | _ :: rest => leaf_status :: rest.map (fun _ => [])

/-- Protocol versions; `tls_version.h` is not under `src/`. Modelled from
the spec: TLS 1.3 is the newest protocol generation, everything else
(`is_pre_tls_13`) is older. -/
inductive Protocol_Version where
  | TLS12
  | DTLS12
  | TLS13
deriving DecidableEq, Repr

def Protocol_Version.is_pre_tls_13 : Protocol_Version → Bool
  | .TLS12 => true
  | .DTLS12 => true
  | .TLS13 => false

/-- Session metadata consumed by the retention decision: protocol version
plus the advisory lifetime hint (a duration in seconds). -/
structure Session where
  version : Protocol_Version
  lifetime_hint : Nat
deriving DecidableEq, Repr

/-- `TLS::Callbacks::tls_should_persist_resumption_information`: keep all
sessions except TLS 1.3 sessions with a zero lifetime hint. -/
def tls_should_persist_resumption_information (session : Session) : Bool :=
  decide (session.lifetime_hint > 0) || session.version.is_pre_tls_13

/-! ## EC key model (`src/pubkey/ecc_key/ecc_key.cpp`)

Curve points, the scalar-multiplication routine and
`PointGFp::check_invariants` belong to the point-arithmetic library, an
external collaborator; they are modelled as an explicit arithmetic
environment over an abstract point representation. The ASN.1 engine
(`DER_Encoder` / `BER_Decoder`) is likewise external and is modelled at the
structural TLV level. -/

/-- Abstract representation of a curve point (`PointGFp`). -/
abbrev PointGFp := Nat

/-- Abstract representation of a curve (`CurveGFp`). -/
abbrev CurveGFp := Nat

/-- The external point-arithmetic collaborator: scalar multiplication of a
point, the point invariant check `PointGFp::check_invariants` (true when no
`Illegal_Point` is thrown), and the point decoder `OS2ECP` for a given
curve (error = thrown `Decoding_Error` or `Illegal_Point` message). -/
structure EC_Arith where
  mul : PointGFp → Nat → PointGFp
  check_invariants_ok : PointGFp → Bool
  os2ecp : CurveGFp → Bytes → Except String PointGFp

/-- EC domain parameters (spec §3): curve, base point, subgroup order,
cofactor, optional identifier string. Immutable once constructed. -/
structure EC_Domain_Params where
  curve : CurveGFp
  base_point : PointGFp
  order : Nat
  cofactor : Nat := 1
  oid : String := ""
deriving DecidableEq, Repr

/-- The three domain-parameter encoding modes of `EC_PublicKey`. -/
inductive EC_Domain_Params_Encoding where
  | EXPLICIT
  | IMPLICITCA
  | OID
deriving DecidableEq, Repr

/-- `AlgorithmIdentifier`: its `parameters` field holds the DER-encoded
domain parameters; the domain-parameter codec is external, so the field is
modelled as the decoded `EC_Domain_Params` value itself. -/
structure AlgorithmIdentifier where
  parameters : EC_Domain_Params
deriving DecidableEq, Repr

structure EC_PublicKey where
  domain_params : EC_Domain_Params
  public_key : PointGFp
  domain_encoding : EC_Domain_Params_Encoding
deriving DecidableEq, Repr

structure EC_PrivateKey where
  domain_params : EC_Domain_Params
  public_key : PointGFp
  domain_encoding : EC_Domain_Params_Encoding
  private_key : Nat
deriving DecidableEq, Repr

/-- Structural view of the ASN.1 values exchanged with the external
DER/BER engine (a tag-length-value tree; the byte-level codec is assumed
correct and inverse per spec §1). -/
inductive ASN1Value where
  | integer (n : Nat)
  | octet_string (bs : Bytes)
  | sequence (elems : List ASN1Value)

/-- `EC_PublicKey::EC_PublicKey(AlgorithmIdentifier, key_bits)`: the
untrusted decode path. Parses domain parameters from the identifier,
decodes the point against that curve with `OS2ECP` (whose own failures
propagate), then re-validates the invariants, turning a failure into
`Decoding_Error("Invalid public point; not on curve")`. -/
def ec_public_key_decode (arith : EC_Arith) (alg_id : AlgorithmIdentifier)
    (key_bits : Bytes) : Except BotanError EC_PublicKey :=
  let dom := alg_id.parameters
  match arith.os2ecp dom.curve key_bits with
  | .error msg => .error (.decoding_error msg)
  | .ok pt =>
    if arith.check_invariants_ok pt then
      .ok ⟨dom, pt, .EXPLICIT⟩
    else
      .error (.decoding_error "Invalid public point; not on curve")

/-- `EC_PrivateKey::private_value()`: fails on an unpopulated scalar. -/
def ec_private_value (key : EC_PrivateKey) : Except BotanError Nat :=
  if key.private_key = 0 then
    .error (.invalid_state "EC_PrivateKey::private_value - uninitialized")
  else
    .ok key.private_key

/-- `EC_PrivateKey::EC_PrivateKey(EC_Domain_Params, BigInt)`: stores the
domain parameters and the scalar as given and derives the public point as
`base_point * priv_key`; performs no range check and no invariant check
(contrast with the random-generation and decode constructors). -/
def ec_private_key_from_scalar (arith : EC_Arith) (dom_par : EC_Domain_Params)
    (priv_key : Nat) : EC_PrivateKey :=
  { domain_params := dom_par
    public_key := arith.mul dom_par.base_point priv_key
    domain_encoding := .EXPLICIT
    private_key := priv_key }

/-- `EC_PrivateKey::pkcs8_private_key()`: DER `SEQUENCE { INTEGER 1,
OCTET STRING encode_1363(private_key, private_key.bytes()) }`. -/
def pkcs8_private_key (key : EC_PrivateKey) : ASN1Value :=
  .sequence [.integer 1,
    .octet_string (BigInt.encode_be key.private_key (BigInt.bytes key.private_key))]

/-- `EC_PrivateKey::EC_PrivateKey(AlgorithmIdentifier, key_bits)`: BER-parse
`SEQUENCE { INTEGER version, OCTET STRING secret }` (with `verify_end`, so
trailing elements are a decode failure, and the version must fit the
`u32bit` it is decoded into), require version 1, decode the scalar,
re-derive the public point and validate it (failure is an internal
error). -/
def ec_private_key_decode (arith : EC_Arith) (alg_id : AlgorithmIdentifier)
    (key_bits : ASN1Value) : Except BotanError EC_PrivateKey :=
  let dom := alg_id.parameters
  match key_bits with
  | .sequence [.integer version, .octet_string octstr_secret] =>
    if version ≥ 2 ^ 32 then
      .error (.decoding_error "Decoded integer is too large")
    else if version ≠ 1 then
      .error (.decoding_error "Wrong key format version for EC key")
    else
      let priv := BigInt.decode octstr_secret
      let pub := arith.mul dom.base_point priv
      if arith.check_invariants_ok pub then
        .ok ⟨dom, pub, .EXPLICIT, priv⟩
      else
        .error (.internal_error "Loaded ECC private key failed self test")
  | _ => .error (.decoding_error "BER decoding failed")

/-! ## Concrete collaborator instances

Used to instantiate the quantified theorems at concrete inputs. -/

/-- A concrete key-agreement environment: a small toy DL group for every
registry name, a point decoder that fails on empty input and otherwise
reads the bytes as a point handle, and an accept-everything policy. -/
def sampleTLSEnv : TLS_Env where
  dl_group_by_name := fun _ => ⟨23, 5, none⟩
  os2ecp := fun _ bs => if bs.isEmpty then .error "OS2ECP: empty input" else .ok (BigInt.decode bs)
  policy_accepts := fun _ => true

/-- A concrete verification environment whose path validator always fails
and echoes the hostname it was handed in the diagnostic string, and whose
OCSP parser fails on inputs shorter than two bytes. -/
def sampleVerifyEnv : Verify_Env where
  require_cert_revocation_info := false
  minimum_signature_strength := 110
  current_timestamp := 1700000000
  ocsp_timeout := 3
  x509_path_validate := fun _ _ _ hostname _ _ _ _ => ⟨false, hostname⟩
  ocsp_parse := fun raw => if raw.length < 2 then .error "truncated" else .ok 7

/-- A concrete point-arithmetic collaborator: multiplication of handles,
an invariant check accepting even handles, a decoder failing on empty
input. -/
def sampleECArith : EC_Arith where
  mul := fun pt k => pt * k
  check_invariants_ok := fun pt => decide (pt % 2 = 0)
  os2ecp := fun _ bs => if bs.isEmpty then .error "OS2ECP: empty input" else .ok (BigInt.decode bs)

/-- Toy EC domain parameters for concrete instantiations. -/
def sampleDomain : EC_Domain_Params :=
  { curve := 1, base_point := 2, order := 19, cofactor := 1, oid := "1.2.3.4" }

/-! ## Claim theorems -/

/-- **C6**: certificate-chain verification with an empty chain always fails
with an invalid-argument error; since the result is this error for every
environment (validator, trust anchors, clock), no path-validation
restriction, trust-anchor or current-time lookup can have influenced it. -/
theorem verify_empty_chain_invalid_argument (env : Verify_Env)
    (ocsp_responses : List (Option OCSP_Response))
    (trusted_roots : List Certificate_Store)
    (usage : Usage_Type) (hostname : String) :
    tls_verify_cert_chain env [] ocsp_responses trusted_roots usage hostname =
      .error (.invalid_argument "Certificate chain was empty") := rfl

/-- **C8**: OCSP response parsing never propagates a decode failure: a
parser failure yields absence (`none`), a parser success yields the parsed
response; the operation is total and returns an `Option`, never a hard
error. -/
theorem ocsp_parse_failure_swallowed (env : Verify_Env) (raw_response : Bytes) :
    (∀ msg, env.ocsp_parse raw_response = .error msg →
        tls_parse_ocsp_response env raw_response = none) ∧
    (∀ response, env.ocsp_parse raw_response = .ok response →
        tls_parse_ocsp_response env raw_response = some response) := by
  constructor
  · intro msg h
    simp [tls_parse_ocsp_response, h]
  · intro response h
    simp [tls_parse_ocsp_response, h]

theorem ocsp_parse_failure_swallowed_witness :
    tls_parse_ocsp_response sampleVerifyEnv [0] = none ∧
    tls_parse_ocsp_response sampleVerifyEnv [0, 1, 2] = some 7 :=
  ⟨(ocsp_parse_failure_swallowed sampleVerifyEnv [0]).1 "truncated" rfl,
   (ocsp_parse_failure_swallowed sampleVerifyEnv [0, 1, 2]).2 7 rfl⟩

/-- **C9**: the session-retention decision returns discard (`false`)
exactly when the protocol version is TLS 1.3 and the lifetime hint is
zero; every older version with zero hint and every positive hint yields
retain (`true`). -/
theorem resumption_persist_decision (session : Session) :
    tls_should_persist_resumption_information session = false ↔
      session.version = Protocol_Version.TLS13 ∧ session.lifetime_hint = 0 := by
  obtain ⟨v, hint⟩ := session
  cases v <;>
    simp [tls_should_persist_resumption_information, Protocol_Version.is_pre_tls_13]

theorem resumption_persist_decision_witness :
    tls_should_persist_resumption_information ⟨Protocol_Version.TLS13, 0⟩ = false :=
  (resumption_persist_decision ⟨Protocol_Version.TLS13, 0⟩).mpr ⟨rfl, rfl⟩

/-- **C10**: the scalar-taking EC private-key constructor performs no
validation: it is total for every scalar (including 0 and values at or
above the subgroup order), stores the scalar and the derived point
unchecked, and its result is independent of the invariant checker and the
point decoder — so no range check and no invariant check runs. -/
theorem ec_scalar_ctor_no_validation (mul : PointGFp → Nat → PointGFp)
    (chk chk' : PointGFp → Bool)
    (dec dec' : CurveGFp → Bytes → Except String PointGFp)
    (dom_par : EC_Domain_Params) (priv_key : Nat) :
    (ec_private_key_from_scalar ⟨mul, chk, dec⟩ dom_par priv_key).private_key
        = priv_key ∧
    (ec_private_key_from_scalar ⟨mul, chk, dec⟩ dom_par priv_key).public_key
        = mul dom_par.base_point priv_key ∧
    ec_private_key_from_scalar ⟨mul, chk, dec⟩ dom_par priv_key
        = ec_private_key_from_scalar ⟨mul, chk', dec'⟩ dom_par priv_key :=
  ⟨rfl, rfl, rfl⟩

/-- **C7**: the hostname is bound to the path validation only for the
server-auth usage. For every non-server usage the verification outcome is
independent of the hostname argument (the validator is handed the empty
string); for the server-auth usage the hostname is handed to the path
validator verbatim. -/
theorem hostname_bound_only_for_server_auth :
    (∀ (env : Verify_Env) cert_chain ocsp_responses trusted_roots usage h1 h2,
       usage ≠ Usage_Type.TLS_SERVER_AUTH →
       tls_verify_cert_chain env cert_chain ocsp_responses trusted_roots usage h1 =
         tls_verify_cert_chain env cert_chain ocsp_responses trusted_roots usage h2) ∧
    (∀ (env : Verify_Env) cert_chain ocsp_responses trusted_roots hostname,
       cert_chain ≠ [] →
       tls_verify_cert_chain env cert_chain ocsp_responses trusted_roots
           Usage_Type.TLS_SERVER_AUTH hostname =
         (if (env.x509_path_validate cert_chain
                ⟨env.require_cert_revocation_info, env.minimum_signature_strength⟩
                trusted_roots hostname Usage_Type.TLS_SERVER_AUTH
                env.current_timestamp env.ocsp_timeout
                ocsp_responses).successful_validation then
            Except.ok ()
          else
            Except.error (BotanError.tls_exception Alert.BadCertificate
              ("Certificate validation failure: " ++
                (env.x509_path_validate cert_chain
                  ⟨env.require_cert_revocation_info, env.minimum_signature_strength⟩
                  trusted_roots hostname Usage_Type.TLS_SERVER_AUTH
                  env.current_timestamp env.ocsp_timeout
                  ocsp_responses).result_string)))) := by
  constructor
  · intro env cert_chain ocsp_responses trusted_roots usage h1 h2 husage
    unfold tls_verify_cert_chain
    simp [husage]
  · intro env cert_chain ocsp_responses trusted_roots hostname hchain
    unfold tls_verify_cert_chain
    simp [hchain]

theorem hostname_bound_only_for_server_auth_witness :
    tls_verify_cert_chain sampleVerifyEnv [5] [] [] Usage_Type.TLS_CLIENT_AUTH "host.a" =
      tls_verify_cert_chain sampleVerifyEnv [5] [] [] Usage_Type.TLS_CLIENT_AUTH "host.b" ∧
    tls_verify_cert_chain sampleVerifyEnv [5] [] [] Usage_Type.TLS_SERVER_AUTH "host.a" =
      Except.error (BotanError.tls_exception Alert.BadCertificate
        "Certificate validation failure: host.a") :=
  ⟨hostname_bound_only_for_server_auth.1 sampleVerifyEnv [5] [] []
      Usage_Type.TLS_CLIENT_AUTH "host.a" "host.b" (by decide),
   (hostname_bound_only_for_server_auth.2 sampleVerifyEnv [5] [] []
      "host.a" (by decide)).trans rfl⟩

/-- **C3**: the untrusted EC public-key decode path always validates the
decoded point: when the point decoder succeeds but the invariant check
fails, the result is exactly
`Decoding_Error("Invalid public point; not on curve")`; when the check
passes, the decoded key is returned; and every successfully decoded key
has passed the invariant check (validation is never skipped). -/
theorem ec_public_key_decode_validates (arith : EC_Arith)
    (alg_id : AlgorithmIdentifier) (key_bits : Bytes) :
    (∀ pt, arith.os2ecp alg_id.parameters.curve key_bits = .ok pt →
        arith.check_invariants_ok pt = false →
        ec_public_key_decode arith alg_id key_bits =
          .error (.decoding_error "Invalid public point; not on curve")) ∧
    (∀ pt, arith.os2ecp alg_id.parameters.curve key_bits = .ok pt →
        arith.check_invariants_ok pt = true →
        ec_public_key_decode arith alg_id key_bits =
          .ok ⟨alg_id.parameters, pt, .EXPLICIT⟩) ∧
    (∀ key, ec_public_key_decode arith alg_id key_bits = .ok key →
        arith.check_invariants_ok key.public_key = true) := by
  refine ⟨?_, ?_, ?_⟩
  · intro pt hdec hchk
    simp only [ec_public_key_decode]
    rw [hdec]
    simp [hchk]
  · intro pt hdec hchk
    simp only [ec_public_key_decode]
    rw [hdec]
    simp [hchk]
  · intro key hok
    simp only [ec_public_key_decode] at hok
    cases hdec : arith.os2ecp alg_id.parameters.curve key_bits with
    | error msg => rw [hdec] at hok; exact absurd hok (by simp)
    | ok pt =>
      rw [hdec] at hok
      dsimp only at hok
      by_cases hchk : arith.check_invariants_ok pt = true
      · rw [if_pos hchk] at hok
        cases hok
        exact hchk
      · rw [if_neg hchk] at hok
        exact absurd hok (by simp)

theorem ec_public_key_decode_validates_witness :
    ec_public_key_decode sampleECArith ⟨sampleDomain⟩ [3] =
      Except.error (BotanError.decoding_error "Invalid public point; not on curve") ∧
    ec_public_key_decode sampleECArith ⟨sampleDomain⟩ [4] =
      Except.ok ⟨sampleDomain, 4, .EXPLICIT⟩ :=
  ⟨(ec_public_key_decode_validates sampleECArith ⟨sampleDomain⟩ [3]).1 3 rfl rfl,
   (ec_public_key_decode_validates sampleECArith ⟨sampleDomain⟩ [4]).2.1 4 rfl rfl⟩

/-- **C2**: encoding an EC private key with a populated scalar and decoding
the result with the same domain parameters reproduces the key: the same
secret scalar, the same derived public point (assuming the key's stored
point is in sync with its scalar and the arithmetic's invariant check
accepts the derived point, which correct arithmetic guarantees). -/
theorem ec_private_key_roundtrip (arith : EC_Arith) (key : EC_PrivateKey)
    (alg_id : AlgorithmIdentifier)
    (hdom : alg_id.parameters = key.domain_params)
    (_hpop : key.private_key ≠ 0)
    (hpub : key.public_key = arith.mul key.domain_params.base_point key.private_key)
    (hchk : arith.check_invariants_ok key.public_key = true) :
    ec_private_key_decode arith alg_id (pkcs8_private_key key) =
      .ok ⟨key.domain_params, key.public_key, .EXPLICIT, key.private_key⟩ := by
  have hscalar : BigInt.decode
      (BigInt.encode_be key.private_key (BigInt.bytes key.private_key)) =
      key.private_key :=
    BigInt.decode_encode_be (BigInt.bytes key.private_key) key.private_key
      (Nat.le_refl _)
  simp only [ec_private_key_decode, pkcs8_private_key, hdom, hscalar]
  rw [← hpub]
  simp [hchk]

theorem ec_private_key_roundtrip_witness :
    ec_private_key_decode sampleECArith ⟨sampleDomain⟩
        (pkcs8_private_key ⟨sampleDomain, 10, .EXPLICIT, 5⟩) =
      Except.ok ⟨sampleDomain, 10, .EXPLICIT, 5⟩ :=
  ec_private_key_roundtrip sampleECArith ⟨sampleDomain, 10, .EXPLICIT, 5⟩
    ⟨sampleDomain⟩ rfl (by decide) rfl rfl

/-- Characterization of the finite-field path of
`tls_ephemeral_key_agreement`: on a DH group the call is exactly the range
check on the decoded Y followed by the policy check and the agreement. -/
theorem dh_path_characterization (env : TLS_Env) (group : GroupSpec)
    (private_key : KAKey) (public_value : Bytes)
    (hff : is_dh_group group = true) :
    tls_ephemeral_key_agreement env group private_key public_value =
      (if BigInt.decode public_value ≤ 1 ∨
          BigInt.decode public_value ≥ (get_dl_group env group).p - 1 then
         .error (.tls_exception .IllegalParameter
           "Server sent bad DH key for DHE exchange")
       else if env.policy_accepts
           (PeerKey.dh (get_dl_group env group) (BigInt.decode public_value)) then
         .ok (SharedSecret.raw_agreement private_key
           (PeerKey.dh (get_dl_group env group) (BigInt.decode public_value)))
       else
         .error (.policy_rejected
           (PeerKey.dh (get_dl_group env group) (BigInt.decode public_value)))) := by
  unfold tls_ephemeral_key_agreement
  rw [if_pos hff]

/-- On a group identifier not tagged as finite-field, derive-shared-secret
can never produce the DH-path illegal-parameter alert, whatever the
environment, private key and peer bytes. -/
theorem derive_non_ff_ne_dh_alert (env : TLS_Env) (gp : Group_Params)
    (private_key : KAKey) (public_value : Bytes)
    (hdh : is_dh gp = false) :
    tls_ephemeral_key_agreement env (Sum.inl gp) private_key public_value ≠
      .error (.tls_exception .IllegalParameter
        "Server sent bad DH key for DHE exchange") := by
  have hffg : is_dh_group (Sum.inl gp) = false := hdh
  unfold tls_ephemeral_key_agreement
  rw [if_neg (by simp [hffg] : ¬ is_dh_group (Sum.inl gp) = true)]
  dsimp only
  by_cases hecdh : is_ecdh gp = true
  · rw [if_pos hecdh]
    cases hos : env.os2ecp (group_param_to_string gp) public_value with
    | error msg => simp
    | ok pt =>
      by_cases hpol :
          env.policy_accepts (PeerKey.ecdh (group_param_to_string gp) pt) = true
      · simp [hpol]
      · simp [hpol]
  · rw [if_neg hecdh]
    by_cases hx : is_x25519 gp = true
    · rw [if_pos hx]
      by_cases hlen : public_value.length = 32
      · rw [if_neg (by simp [hlen] : ¬ public_value.length ≠ 32)]
        by_cases hpol : env.policy_accepts (PeerKey.x25519 public_value) = true
        · rw [if_pos hpol]
          simp
        · rw [if_neg hpol]
          simp
      · rw [if_pos hlen]
        simp
    · rw [if_neg hx]
      simp

/-- **C1**: on every finite-field group, derive-shared-secret decodes the
peer bytes as an integer Y and fails with the fatal illegal-parameter
alert exactly when Y ≤ 1 or Y ≥ p − 1 (so Y = 0, 1, p − 1 and p are all
rejected); since the equivalence holds for every environment — in
particular for every policy predicate and before any agreement value is
formed — the rejection happens before any policy check or agreement
computation. -/
theorem dh_peer_value_range_check (env : TLS_Env) (group : GroupSpec)
    (private_key : KAKey) (public_value : Bytes)
    (hff : is_dh_group group = true) :
    tls_ephemeral_key_agreement env group private_key public_value =
        .error (.tls_exception .IllegalParameter
          "Server sent bad DH key for DHE exchange") ↔
      (BigInt.decode public_value ≤ 1 ∨
        BigInt.decode public_value ≥ (get_dl_group env group).p - 1) := by
  rw [dh_path_characterization env group private_key public_value hff]
  by_cases hY : (BigInt.decode public_value ≤ 1 ∨
      BigInt.decode public_value ≥ (get_dl_group env group).p - 1)
  · rw [if_pos hY]
    exact ⟨fun _ => hY, fun _ => rfl⟩
  · rw [if_neg hY]
    constructor
    · intro herr
      exfalso
      by_cases hpol : env.policy_accepts
          (PeerKey.dh (get_dl_group env group) (BigInt.decode public_value)) = true
      · rw [if_pos hpol] at herr
        exact Except.noConfusion herr
      · rw [if_neg hpol] at herr
        simp at herr
    · intro h
      exact absurd h hY

theorem dh_peer_value_range_check_witness :
    tls_ephemeral_key_agreement sampleTLSEnv (Sum.inr ⟨23, 5, none⟩)
        (KAKey.dh ⟨23, 5, none⟩) [1] =
      Except.error (BotanError.tls_exception Alert.IllegalParameter
        "Server sent bad DH key for DHE exchange") :=
  (dh_peer_value_range_check sampleTLSEnv (Sum.inr ⟨23, 5, none⟩)
      (KAKey.dh ⟨23, 5, none⟩) [1] rfl).mpr (Or.inl (by decide))

/-- **C4**: on the X25519 path of derive-shared-secret, a peer value whose
length is not 32 bytes fails with the fatal handshake-failure alert, and a
32-byte value proceeds directly to the policy check and the agreement
computation — the outcome is exactly the policy decision applied to a key
built from the raw bytes, with no additional point-validity check. -/
theorem x25519_peer_value_length_check (env : TLS_Env) (private_key : KAKey)
    (public_value : Bytes) :
    (public_value.length ≠ 32 →
       tls_ephemeral_key_agreement env (Sum.inl Group_Params.X25519)
           private_key public_value =
         .error (.tls_exception .HandshakeFailure "Invalid X25519 key size")) ∧
    (public_value.length = 32 →
       tls_ephemeral_key_agreement env (Sum.inl Group_Params.X25519)
           private_key public_value =
         (if env.policy_accepts (PeerKey.x25519 public_value) then
            .ok (SharedSecret.raw_agreement private_key (PeerKey.x25519 public_value))
          else
            .error (.policy_rejected (PeerKey.x25519 public_value)))) := by
  constructor
  · intro hlen
    simp [tls_ephemeral_key_agreement, is_dh_group, is_dh, is_ecdh, is_x25519, hlen]
  · intro hlen
    simp [tls_ephemeral_key_agreement, is_dh_group, is_dh, is_ecdh, is_x25519, hlen]

theorem x25519_peer_value_length_check_witness :
    tls_ephemeral_key_agreement sampleTLSEnv (Sum.inl Group_Params.X25519)
        KAKey.x25519 (List.replicate 31 0) =
      Except.error (BotanError.tls_exception Alert.HandshakeFailure
        "Invalid X25519 key size") ∧
    tls_ephemeral_key_agreement sampleTLSEnv (Sum.inl Group_Params.X25519)
        KAKey.x25519 (List.replicate 32 7) =
      Except.ok (SharedSecret.raw_agreement KAKey.x25519
        (PeerKey.x25519 (List.replicate 32 7))) :=
  ⟨(x25519_peer_value_length_check sampleTLSEnv KAKey.x25519
      (List.replicate 31 0)).1 (by simp),
   ((x25519_peer_value_length_check sampleTLSEnv KAKey.x25519
      (List.replicate 32 7)).2 (by simp)).trans rfl⟩

/-- The specification's classification rule, stated in its own words: a
group specification is finite-field exactly when it explicitly carries
finite-field (DL) parameters, or its identifier is tagged as a
finite-field-DH-class identifier in the fixed enumeration. -/
def ff_spec_classification (group : GroupSpec) : Bool :=
  match group with
  | .inr _ => true
  | .inl group_param => is_dh group_param

/-- **C5**: generate-ephemeral-key and derive-shared-secret classify every
group specification identically: generate produces a finite-field key
exactly when the spec's classification rule holds, and derive behaves as
the finite-field path (witnessed by its unconditional rejection of the
peer value `[0]`, which decodes to Y = 0, with the DH illegal-parameter
alert) exactly when the same rule holds — for every environment, so the
two operations can never disagree on the selected path. -/
theorem generate_derive_agree_on_ff_classification (env : TLS_Env)
    (group : GroupSpec) :
    ((∃ dl_group, tls_generate_ephemeral_key env group =
        .ok (KAKey.dh dl_group)) ↔ ff_spec_classification group = true) ∧
    (∀ private_key,
       (tls_ephemeral_key_agreement env group private_key [0] =
          .error (.tls_exception .IllegalParameter
            "Server sent bad DH key for DHE exchange")) ↔
         ff_spec_classification group = true) := by
  have hdecode : BigInt.decode [0] = 0 := rfl
  constructor
  · cases group with
    | inr dl_group =>
      simp [tls_generate_ephemeral_key, is_dh_group, ff_spec_classification,
        get_dl_group]
    | inl group_param =>
      cases group_param <;>
        simp [tls_generate_ephemeral_key, is_dh_group, is_dh, is_ecdh,
          is_x25519, ff_spec_classification, get_dl_group]
  · intro private_key
    cases group with
    | inr dl_group =>
      constructor
      · intro _
        rfl
      · intro _
        rw [dh_path_characterization env (Sum.inr dl_group) private_key [0] rfl,
          if_pos (Or.inl (by decide))]
    | inl group_param =>
      by_cases hdhp : is_dh group_param = true
      · constructor
        · intro _
          simpa [ff_spec_classification] using hdhp
        · intro _
          rw [dh_path_characterization env (Sum.inl group_param) private_key [0]
            hdhp, if_pos (Or.inl (by decide))]
      · have hdh' : is_dh group_param = false := by simpa using hdhp
        constructor
        · intro herr
          exact absurd herr
            (derive_non_ff_ne_dh_alert env group_param private_key [0] hdh')
        · intro hffc
          exfalso
          simp [ff_spec_classification, hdh'] at hffc
